import Mathlib

/-!
Verification of the fileConverter repository (newBackend/app.py and
python-converter/app.py) against its natural-language specification.

The development shallow-embeds the conversion-orchestration core of the two
Flask services: the fallback loops of convert_pdf_to_docx / convert_docx_to_pdf,
the capability table and request dispatch, the image re-encode method, the
temp-file naming and cleanup discipline, and the python-converter request
router.  External libraries (PyMuPDF, pdf2docx, PIL, Word/LibreOffice) are
modelled at their interface: a candidate method's run is abstracted by the
outcome it produces (an exception, or a returned path whose existence and size
the filesystem reports), and PIL decoding/encoding is abstracted by oracles,
while the PIL pixel operations actually performed by convert_image (mode
conversion, paste, alpha flattening) are modelled concretely.
-/

namespace FileConverter

/-! ## String helpers modelling the Python string operations used by the code -/

/-- Python str.lower() restricted to ASCII strings (the only inputs the
services build paths from). -/
def lowerStr (s : String) : String :=
  String.mk (s.data.map Char.toLower)

/-- Python str.upper() restricted to ASCII strings. -/
def upperStr (s : String) : String :=
  String.mk (s.data.map Char.toUpper)

/-- The component after the last dot, or the whole string when it has no dot:
Python s.split(".")[-1] and, when a dot is present, s.rsplit(".", 1)[1]. -/
def afterLastDot (l : List Char) : List Char :=
  l.foldl (fun acc c => if c == '.' then [] else acc ++ [c]) []

/-- Python s.rsplit(".", 1)[0]: everything before the last dot, or the whole
string when it has no dot. -/
def beforeLastDot (l : List Char) : List Char :=
  if l.contains '.' then
    let r := l.reverse
    (r.drop ((r.takeWhile (fun c => c != '.')).length + 1)).reverse
  else l

/-- Python substring membership p in s, on character lists. -/
def charsContain (p : List Char) : List Char → Bool
  | [] => p.isEmpty
  | c :: t => p.isPrefixOf (c :: t) || charsContain p t

/-- Python s.startswith(p). -/
def pyStartsWith (s p : String) : Bool :=
  p.data.isPrefixOf s.data

/-- The base part of os.path.splitext: the extension is the part after the
last dot, except when every character before that dot is itself a dot
(leading dots never start an extension). -/
def splitext_base (l : List Char) : List Char :=
  if l.contains '.' then
    let r := l.reverse
    let ext := r.takeWhile (fun c => c != '.')
    let b := (r.drop (ext.length + 1)).reverse
    if b.isEmpty || b.all (fun c => c == '.') then l else b
  else l

/-- The extension part of os.path.splitext, including its dot (empty when
splitext_base keeps the whole string). -/
def splitext_ext (l : List Char) : List Char :=
  if l.contains '.' then
    let r := l.reverse
    let ext := r.takeWhile (fun c => c != '.')
    let b := (r.drop (ext.length + 1)).reverse
    if b.isEmpty || b.all (fun c => c == '.') then [] else '.' :: ext.reverse
  else []

/-! ## The fallback orchestrator (newBackend/app.py, convert_pdf_to_docx
lines 44-60 and convert_docx_to_pdf lines 239-255)

Both loops have the identical shape

    last_error = None
    for method in methods:
        try:
            result = method(...)
            if result and os.path.exists(result):
                return result
        except Exception as e:
            last_error = e
            continue
    raise Exception("All ... methods failed: " ++ last_error)

A candidate method together with the filesystem's answers about its output is
abstracted by a MethodResult: either the call raised with an error message, or
it returned a path for which os.path.exists reports present and
os.path.getsize reports size. -/

/-- Outcome of invoking one candidate conversion method, together with what
the filesystem reports about the path it returned. -/
inductive MethodResult where
  | raises (err : String)
  | returns (path : String) (present : Bool) (size : Nat)
  deriving DecidableEq

/-- The success test of the newBackend fallback loop: the returned value is
truthy and os.path.exists holds.  No size check appears here. -/
def methodSucceeds : MethodResult → Bool
  | .raises _ => false
  | .returns p present _ => (p != "") && present

/-- The path a method returned (dummy for a raising method). -/
def methodPath : MethodResult → String
  | .raises _ => ""
  | .returns p _ _ => p

/-- The fallback loop of convert_pdf_to_docx / convert_docx_to_pdf, carrying
the single last_error variable.  On exhaustion it raises, carrying only
last_error; this Failure payload is the Option String of the error value. -/
def run_methods : List MethodResult → Option String → Except (Option String) String
  | [], lastError => .error lastError
  | m :: rest, lastError =>
    match m with
    | .raises e => run_methods rest (some e)
    | .returns p present _ =>
      if (p != "") && present then .ok p else run_methods rest lastError

/-- convert_pdf_to_docx (and identically convert_docx_to_pdf): run the method
list with last_error initialized to None. -/
def convert_pdf_to_docx (methods : List MethodResult) : Except (Option String) String :=
  run_methods methods none

/-- How many candidate methods the loop invokes before stopping. -/
def invoked_methods : List MethodResult → Nat
  | [] => 0
  | m :: rest => if methodSucceeds m then 1 else invoked_methods rest + 1

/-- The attempt diagnostics recoverable from the final outcome: a Failure
carries only the single last_error value; a Success carries nothing. -/
def attemptDetails : Except (Option String) String → List String
  | .ok _ => []
  | .error o => o.toList

/-- The value held by last_error after a run of the given methods, starting
from the given value: the message of the last raising method, if any. -/
def last_error_after : List MethodResult → Option String → Option String
  | [], lastError => lastError
  | .raises e :: rest, _ => last_error_after rest (some e)
  | .returns _ _ _ :: rest, lastError => last_error_after rest lastError

/-- The verification applied by python-converter pdf_to_docx_professional
(lines 142-149) to its first candidate's output: the file exists and has
nonzero size. -/
def pdf2docx_verified (present : Bool) (size : Nat) : Bool :=
  present && decide (0 < size)

/-! ## MIME handling, allowed extensions, and the request dispatch
(newBackend/app.py lines 29-32, 400-408, 459-481, 629-649) -/

/-- ALLOWED_EXTENSIONS of newBackend/app.py. -/
def ALLOWED_EXTENSIONS : List String :=
  ["pdf", "docx", "doc", "txt", "jpg", "jpeg", "png", "webp", "gif", "bmp", "tiff", "svg"]

/-- allowed_file of newBackend/app.py: a dot is present and the lowered
extension after the last dot is allowed. -/
def allowed_file (filename : String) : Bool :=
  filename.data.contains '.' &&
    ALLOWED_EXTENSIONS.contains (lowerStr (String.mk (afterLastDot filename.data)))

/-- The mime_map table of get_mime_type. -/
def mime_map : List (String × String) :=
  [("pdf", "application/pdf"),
   ("docx", "application/vnd.openxmlformats-officedocument.wordprocessingml.document"),
   ("doc", "application/msword"),
   ("txt", "text/plain"),
   ("jpg", "image/jpeg"), ("jpeg", "image/jpeg"),
   ("png", "image/png"), ("webp", "image/webp"),
   ("gif", "image/gif"), ("bmp", "image/bmp"),
   ("tiff", "image/tiff"), ("tif", "image/tiff"),
   ("svg", "image/svg+xml")]

/-- get_mime_type of newBackend/app.py: look up the lowered extension after
the last dot, defaulting to application/octet-stream. -/
def get_mime_type (filename : String) : String :=
  let ext := lowerStr (String.mk (afterLastDot filename.data))
  ((mime_map.find? (fun pr => pr.1 == ext)).map Prod.snd).getD "application/octet-stream"

/-- The routes of the document-dispatch chain in convert_file (newBackend,
lines 459-481), plus the in-memory image route and the unsupported fallthrough. -/
inductive DocRoute where
  | imageRoute
  | pdfToDocx
  | pdfToTxt
  | docxToPdf
  | docxToTxt
  | txtToPdf
  | txtToDocx
  | unsupported
  deriving DecidableEq

/-- The dispatch of newBackend convert_file: the image branch is keyed on the
mime prefix, the document branches on exact mime / substring tests, and any
other pair falls through to the 400 "Unsupported conversion" response. -/
def convert_file_route (mime target : String) : DocRoute :=
  if pyStartsWith mime "image/" then .imageRoute
  else if mime == "application/pdf" && target == "docx" then .pdfToDocx
  else if mime == "application/pdf" && target == "txt" then .pdfToTxt
  else if charsContain "wordprocessingml".data mime.data && target == "pdf" then .docxToPdf
  else if charsContain "wordprocessingml".data mime.data && target == "txt" then .docxToTxt
  else if mime == "text/plain" && target == "pdf" then .txtToPdf
  else if mime == "text/plain" && target == "docx" then .txtToDocx
  else .unsupported

/-- get_supported_conversions of newBackend/app.py (lines 373-395): the
capability table served by the supported-formats endpoint. -/
def get_supported_conversions : List (String × List String) :=
  [("image/jpeg", ["png", "webp", "jpg", "bmp", "tiff"]),
   ("image/jpg", ["png", "webp", "jpeg", "bmp", "tiff"]),
   ("image/png", ["jpeg", "jpg", "webp", "bmp", "tiff"]),
   ("image/gif", ["jpeg", "jpg", "png", "webp"]),
   ("image/webp", ["jpeg", "jpg", "png", "bmp"]),
   ("image/bmp", ["jpeg", "jpg", "png", "webp"]),
   ("image/tiff", ["jpeg", "jpg", "png", "webp"]),
   ("image/svg+xml", ["png", "jpeg", "jpg", "webp"]),
   ("application/pdf", ["docx", "txt", "pdf"]),
   ("application/msword", ["pdf", "txt", "docx"]),
   ("application/vnd.openxmlformats-officedocument.wordprocessingml.document",
     ["pdf", "txt", "docx"]),
   ("application/vnd.ms-excel", ["pdf", "txt"]),
   ("application/vnd.openxmlformats-officedocument.spreadsheetml.sheet", ["pdf", "txt"]),
   ("application/vnd.ms-powerpoint", ["pdf", "txt"]),
   ("application/vnd.openxmlformats-officedocument.presentationml.presentation",
     ["pdf", "txt"]),
   ("text/plain", ["pdf", "docx", "txt"])]

/-- Whether the dispatch has a registered route for a pair. -/
def routeRegistered (mime target : String) : Bool :=
  !(convert_file_route mime target == DocRoute.unsupported)

/-- The advertised document pairs that actually have a dispatch route. -/
def routedDocPairs : List (String × String) :=
  [("application/pdf", "docx"), ("application/pdf", "txt"),
   ("application/vnd.openxmlformats-officedocument.wordprocessingml.document", "pdf"),
   ("application/vnd.openxmlformats-officedocument.wordprocessingml.document", "txt"),
   ("text/plain", "pdf"), ("text/plain", "docx")]

/-! ## Filename sanitation and temp-file naming
(newBackend/app.py lines 403-408 and 440-444; werkzeug secure_filename) -/

/-- Characters kept by werkzeug's filename strip pattern: letters, digits,
underscore, dot and hyphen. -/
def ascii_keep (c : Char) : Bool :=
  c.isAlphanum || c == '_' || c == '.' || c == '-'

/-- Python str.split() with no argument: split on whitespace runs, dropping
empty pieces. -/
def splitWs : List Char → List Char → List (List Char)
  | [], acc => if acc.isEmpty then [] else [acc.reverse]
  | c :: t, acc =>
    if c == ' ' || c == '\t' || c == '\n' || c == '\r' then
      if acc.isEmpty then splitWs t [] else acc.reverse :: splitWs t []
    else splitWs t (c :: acc)

/-- Python "_".join(pieces). -/
def joinUnderscore : List (List Char) → List Char
  | [] => []
  | [x] => x
  | x :: xs => x ++ '_' :: joinUnderscore xs

/-- Python s.strip("._"): remove dots and underscores from both ends. -/
def stripDotUnderscore (l : List Char) : List Char :=
  (((l.dropWhile fun c => c == '.' || c == '_').reverse.dropWhile
    fun c => c == '.' || c == '_')).reverse

/-- The reserved device names werkzeug guards against on Windows (the
services import win32com, so they run with os.name == "nt"). -/
def windows_device_files : List String :=
  ["CON", "AUX", "COM1", "COM2", "COM3", "COM4", "LPT1", "LPT2", "LPT3", "PRN", "NUL"]

/-- Modelled from werkzeug's secure_filename on ASCII input (the NFKD
normalization and ascii encode are the identity there): path separators
become spaces, whitespace-split pieces are joined with underscores,
characters outside the kept set are removed, leading and trailing dots and
underscores are stripped, and a Windows device name is prefixed with an
underscore. -/
def secure_filename (filename : String) : String :=
  let s := filename.data.map fun c => if c == '/' || c == '\\' then ' ' else c
  let t := stripDotUnderscore ((joinUnderscore (splitWs s [])).filter ascii_keep)
  let name := String.mk t
  if windows_device_files.contains
      (upperStr (String.mk (t.takeWhile fun c => c != '.'))) then
    "_" ++ name
  else name

/-- get_safe_filename of newBackend/app.py: replace the characters unsafe on
Windows and the spaces with underscores, then apply secure_filename. -/
def get_safe_filename (filename : String) : String :=
  let s := filename.data.map fun c =>
    if c == '<' || c == '>' || c == ':' || c == '\"' || c == '/' || c == '\\' ||
        c == '|' || c == '?' || c == '*' then '_' else c
  secure_filename (String.mk (s.map fun c => if c == ' ' then '_' else c))

/-- UPLOAD_FOLDER = tempfile.gettempdir(), modelled as a fixed directory. -/
def UPLOAD_FOLDER : String := "/tmp"

/-- get_output_filename of newBackend/app.py (lines 645-649). -/
def get_output_filename (original_name target : String) (now : Nat) : String :=
  String.mk (beforeLastDot original_name.data) ++ "-converted-" ++ Nat.repr now ++
    "." ++ target

/-- The input temp path of newBackend convert_file (line 442): the
second-resolution timestamp and the sanitized user filename. -/
def nb_input_path (now : Nat) (filename : String) : String :=
  UPLOAD_FOLDER ++ "/input_" ++ Nat.repr now ++ "_" ++ get_safe_filename filename

/-- The output filename of newBackend convert_file (line 443). -/
def nb_output_filename (filename target : String) : String :=
  "converted_" ++ String.mk (splitext_base (get_safe_filename filename).data) ++
    "." ++ target

/-- The output temp path of newBackend convert_file (line 444). -/
def nb_output_path (now : Nat) (filename target : String) : String :=
  UPLOAD_FOLDER ++ "/output_" ++ Nat.repr now ++ "_" ++ nb_output_filename filename target

/-! ## The PIL image model used by convert_image
(newBackend/app.py lines 341-371)

A decoded PIL image is a mode, a row-major list of pixels (each a list of
channel values), and a palette of RGBA entries used when the mode is P.  The
operations convert_image performs on it - convert("RGBA"), Image.new of a
white RGB background, split()[-1], and paste with or without an alpha mask -
are modelled with PIL's documented pixel semantics. -/

/-- The PIL modes convert_image distinguishes. -/
inductive PixMode where
  | RGB
  | RGBA
  | LA
  | L
  | P
  deriving DecidableEq

/-- A decoded image: mode, pixels (channel lists), palette (RGBA entries,
meaningful for mode P). -/
structure PILImage where
  mode : PixMode
  px : List (List Nat)
  palette : List (List Nat)
  deriving DecidableEq

/-- Channels per pixel for each mode. -/
def channelCount : PixMode → Nat
  | .RGB => 3
  | .RGBA => 4
  | .LA => 2
  | .L => 1
  | .P => 1

/-- The RGB value of one pixel, as PIL's conversion to RGB produces it:
colour channels for RGB/RGBA, replicated luminance for LA/L, palette lookup
for P. -/
def pixelRGB (img : PILImage) (p : List Nat) : List Nat :=
  match img.mode with
  | .RGB => [p.getD 0 0, p.getD 1 0, p.getD 2 0]
  | .RGBA => [p.getD 0 0, p.getD 1 0, p.getD 2 0]
  | .LA => [p.getD 0 0, p.getD 0 0, p.getD 0 0]
  | .L => [p.getD 0 0, p.getD 0 0, p.getD 0 0]
  | .P =>
    let q := img.palette.getD (p.getD 0 0) [0, 0, 0, 255]
    [q.getD 0 0, q.getD 1 0, q.getD 2 0]

/-- The alpha value of one pixel: the alpha channel for RGBA/LA, the palette
entry's alpha for P, opaque for the alpha-free modes. -/
def pixelAlpha (img : PILImage) (p : List Nat) : Nat :=
  match img.mode with
  | .RGBA => p.getD 3 0
  | .LA => p.getD 1 0
  | .P => (img.palette.getD (p.getD 0 0) [0, 0, 0, 255]).getD 3 0
  | _ => 255

/-- img.convert("RGBA") on a P-mode image: each palette index is replaced by
its palette RGBA entry. -/
def convert_RGBA (img : PILImage) : PILImage :=
  ⟨.RGBA, img.px.map (fun p => img.palette.getD (p.getD 0 0) [0, 0, 0, 255]), []⟩

/-- img.split()[-1]: the last channel of every pixel (the alpha channel for
RGBA and LA). -/
def split_last (img : PILImage) : List Nat :=
  img.px.map fun p => p.getD (channelCount img.mode - 1) 0

/-- Image.new("RGB", img.size, (255, 255, 255)): the white background. -/
def white_background (n : Nat) : PILImage :=
  ⟨.RGB, List.replicate n [255, 255, 255], []⟩

/-- One channel of PIL's masked compositing: src weighted by the mask alpha
against the background. -/
def blendChannel (s b a : Nat) : Nat :=
  (s * a + b * (255 - a)) / 255

/-- One pixel of PIL's masked compositing. -/
def blendPixel (srcRGB bgRGB : List Nat) (a : Nat) : List Nat :=
  List.zipWith (fun s b => blendChannel s b a) srcRGB bgRGB

/-- Masked paste, pixel by pixel over the background, source and mask. -/
def pasteMaskPx (img : PILImage) :
    List (List Nat) → List (List Nat) → List Nat → List (List Nat)
  | bgp :: bgs, sp :: sps, a :: ms =>
    blendPixel (pixelRGB img sp) bgp a :: pasteMaskPx img bgs sps ms
  | _, _, _ => []

/-- background.paste(img, mask): with a mask, every pixel is composited over
the background weighted by the mask; without one, the pasted image simply
replaces the background (converted to the background's RGB mode), its alpha
ignored. -/
def paste (bg src : PILImage) (mask : Option (List Nat)) : PILImage :=
  match mask with
  | none => ⟨bg.mode, src.px.map (pixelRGB src), []⟩
  | some m => ⟨bg.mode, pasteMaskPx src bg.px src.px m, []⟩

/-- The arguments of the final img.save call: the image content handed to the
encoder, the format, and the fixed quality setting if one is passed. -/
structure SaveCall where
  img : PILImage
  format : String
  quality : Option Nat
  deriving DecidableEq

/-- The body of convert_image after decoding (lines 347-368): for a JPEG
target an RGBA, LA or P source is pasted onto a white RGB background - with
the alpha channel as mask only when the (possibly P-converted) image is RGBA
- and saved at quality 95; PNG and WEBP are saved directly at their fixed
settings; any other target is saved as its uppercased format name. -/
def encode_for_target (img0 : PILImage) (target_format : String) : SaveCall :=
  let tf := upperStr target_format
  if tf == "JPEG" || tf == "JPG" then
    if img0.mode == .RGBA || img0.mode == .LA || img0.mode == .P then
      let img := if img0.mode == .P then convert_RGBA img0 else img0
      let background := white_background img.px.length
      let flattened := paste background img
        (if img.mode == .RGBA then some (split_last img) else none)
      ⟨flattened, "JPEG", some 95⟩
    else ⟨img0, "JPEG", some 95⟩
  else if tf == "PNG" then ⟨img0, "PNG", none⟩
  else if tf == "WEBP" then ⟨img0, "WEBP", some 90⟩
  else ⟨img0, tf, none⟩

/-- Whether every pixel of an image is opaque. -/
def no_transparent_pixels (img : PILImage) : Bool :=
  img.px.all fun p => pixelAlpha img p == 255

/-- convert_image of newBackend/app.py: decode the buffer (the decoder and
the byte encoder are the PIL oracles), re-encode for the target, and wrap any
decoding failure in the "Image conversion failed" exception the except branch
raises. -/
def convert_image (decode : List Nat → Except String PILImage)
    (encode : SaveCall → List Nat) (image_buffer : List Nat)
    (original_format target_format : String) : Except String (List Nat) :=
  match decode image_buffer with
  | .error e => .error ("Image conversion failed: " ++ e)
  | .ok img => .ok (encode (encode_for_target img target_format))

/-! ## Filesystem and temp-resource cleanup
(newBackend/app.py lines 508-511 and 651-657)

The filesystem is the list of existing paths.  os.remove may fail; which
paths it fails on is an oracle failDel, so that the cleanup discipline can be
proved for every failure pattern. -/

/-- os.path.exists. -/
def fsExists (p : String) (fs : List String) : Bool :=
  fs.contains p

/-- Creating (or overwriting) a file. -/
def fsWrite (p : String) (fs : List String) : List String :=
  p :: fs

/-- os.remove when it succeeds: the path no longer exists. -/
def fsRemove (p : String) (fs : List String) : List String :=
  fs.filter fun q => q != p

/-- cleanup_file of newBackend/app.py: nothing for a None handle or a missing
file; otherwise os.remove, whose failure is caught and logged, never raised.
The function is total: cleanup never fails its caller. -/
def cleanup_file (failDel : String → Bool) (fs : List String) :
    Option String → List String
  | none => fs
  | some p =>
    if fsExists p fs then (if failDel p then fs else fsRemove p fs) else fs

/-! ## The newBackend request pipeline (convert_file, lines 419-511)

The multipart upload is a filename plus a byte stream with a read position:
werkzeug's FileStorage.save copies the stream from its current position and
leaves it at the end, and a later read() returns the bytes from the current
position.  The six document conversion functions are abstracted by an oracle
from the dispatched route and the filesystem to either a raised error message
or the new filesystem plus the produced bytes. -/

/-- An uploaded file: name, content bytes, and stream position. -/
structure UploadFile where
  filename : String
  content : List Nat
  pos : Nat
  deriving DecidableEq

/-- A conversion request as the handler sees it. -/
structure ConvRequest where
  hasFile : Bool
  file : UploadFile
  targetFormat : String
  deriving DecidableEq

/-- The handler's terminal responses: a file attachment or a JSON error with
its HTTP status. -/
inductive ConvResult where
  | fileResponse (data : List Nat) (downloadName : String) (mime : String)
  | errorResponse (msg : String) (status : Nat)
  deriving DecidableEq

/-- What the try-block of convert_file produces: the response, the filesystem
it leaves, and the values of the input_path/output_path variables the finally
block will release. -/
structure BodyOutcome where
  result : ConvResult
  fs : List String
  inputPath : Option String
  outputPath : Option String
  deriving DecidableEq

/-- file.save(path) followed by the stream being left at its end. -/
def file_save (f : UploadFile) : UploadFile :=
  ⟨f.filename, f.content, f.content.length⟩

/-- file.read() after file.save: the bytes from the current stream position,
which save left at the end. -/
def staged_read (f : UploadFile) : List Nat :=
  (file_save f).content.drop (file_save f).pos

/-- The try-block of newBackend convert_file: validations, temp-path
generation, staging the upload to disk, then the image branch (in-memory,
reading the already-consumed stream) or the document dispatch, with every
raised exception turned into the 500 response of the except branch. -/
def convert_file_body (decode : List Nat → Except String PILImage)
    (encode : SaveCall → List Nat)
    (docOracle : DocRoute → List String → Except String (List String × List Nat))
    (now : Nat) (req : ConvRequest) (fs : List String) : BodyOutcome :=
  if !req.hasFile then ⟨.errorResponse "No file provided" 400, fs, none, none⟩
  else
    let target := lowerStr req.targetFormat
    if req.file.filename == "" then ⟨.errorResponse "No file selected" 400, fs, none, none⟩
    else if !allowed_file req.file.filename then
      ⟨.errorResponse "File type not allowed" 400, fs, none, none⟩
    else if target == "" then
      ⟨.errorResponse "Target format not specified" 400, fs, none, none⟩
    else
      let input_path := nb_input_path now req.file.filename
      let output_path := nb_output_path now req.file.filename target
      let fs1 := fsWrite input_path fs
      let fileAfter := file_save req.file
      if !fsExists input_path fs1 then
        ⟨.errorResponse ("Conversion failed: Failed to save uploaded file: " ++ input_path)
          500, fs1, some input_path, some output_path⟩
      else
        let mime := get_mime_type req.file.filename
        if pyStartsWith mime "image/" then
          let file_buffer := fileAfter.content.drop fileAfter.pos
          match convert_image decode encode file_buffer
              (String.mk (afterLastDot req.file.filename.data)) target with
          | .error e =>
            ⟨.errorResponse ("Conversion failed: " ++ e) 500,
              fs1, some input_path, some output_path⟩
          | .ok data =>
            ⟨.fileResponse data (get_output_filename req.file.filename target now)
              ("image/" ++ target), fs1, some input_path, some output_path⟩
        else
          match convert_file_route mime target with
          | .unsupported =>
            ⟨.errorResponse ("Unsupported conversion: " ++ mime ++ " to " ++ target) 400,
              fs1, some input_path, some output_path⟩
          | route =>
            match docOracle route fs1 with
            | .error e =>
              ⟨.errorResponse ("Conversion failed: " ++ e) 500,
                fs1, some input_path, some output_path⟩
            | .ok (fs2, data) =>
              if !fsExists output_path fs2 then
                ⟨.errorResponse
                  ("Conversion failed: Conversion failed - output file not created: " ++
                    output_path) 500, fs2, some input_path, some output_path⟩
              else
                ⟨.fileResponse data (get_output_filename req.file.filename target now)
                  (get_mime_type target), fs2, some input_path, some output_path⟩

/-- convert_file of newBackend/app.py: the try/except body followed by the
finally block, which releases the input and output temp paths regardless of
the outcome and never alters the response. -/
def convert_file (decode : List Nat → Except String PILImage)
    (encode : SaveCall → List Nat)
    (docOracle : DocRoute → List String → Except String (List String × List Nat))
    (now : Nat) (req : ConvRequest) (fs : List String) (failDel : String → Bool) :
    ConvResult × List String :=
  ((convert_file_body decode encode docOracle now req fs).result,
    cleanup_file failDel
      (cleanup_file failDel (convert_file_body decode encode docOracle now req fs).fs
        (convert_file_body decode encode docOracle now req fs).inputPath)
      (convert_file_body decode encode docOracle now req fs).outputPath)

/-! ## The python-converter request pipeline
(python-converter/app.py lines 24-127) -/

/-- ALLOWED_EXTENSIONS of python-converter/app.py. -/
def PC_ALLOWED_EXTENSIONS : List String :=
  ["pdf", "docx", "doc", "txt"]

/-- allowed_file of python-converter/app.py. -/
def pc_allowed_file (filename : String) : Bool :=
  filename.data.contains '.' &&
    PC_ALLOWED_EXTENSIONS.contains (lowerStr (String.mk (afterLastDot filename.data)))

/-- The dispatch of perform_conversion (lines 104-127): four supported pairs
keyed on the lowered input extension; anything else raises ValueError with
the "Unsupported conversion" message, which the generic handler catches. -/
def perform_conversion_route (input_ext target : String) : Except String DocRoute :=
  if input_ext == ".pdf" && target == "docx" then .ok .pdfToDocx
  else if input_ext == ".pdf" && target == "txt" then .ok .pdfToTxt
  else if input_ext == ".docx" && target == "pdf" then .ok .docxToPdf
  else if input_ext == ".docx" && target == "txt" then .ok .docxToTxt
  else .error ("Unsupported conversion: " ++ input_ext ++ " to " ++ target)

/-- get_mimetype of python-converter/app.py (lines 519-527). -/
def pc_get_mimetype (format_name : String) : String :=
  (((([("pdf", "application/pdf"),
      ("docx",
        "application/vnd.openxmlformats-officedocument.wordprocessingml.document"),
      ("txt", "text/plain"),
      ("doc", "application/msword")] :
    List (String × String)).find? fun pr => pr.1 == format_name).map Prod.snd).getD
    "application/octet-stream")

/-- The input temp path of python-converter convert_file (line 68): werkzeug
secure_filename only, no extra sanitation pass. -/
def pc_input_path (now : Nat) (filename : String) : String :=
  UPLOAD_FOLDER ++ "/input_" ++ Nat.repr now ++ "_" ++ secure_filename filename

/-- The output filename of python-converter convert_file (line 76). -/
def pc_output_filename (filename target : String) : String :=
  "converted_" ++ String.mk (splitext_base (secure_filename filename).data) ++
    "." ++ target

/-- The output temp path of python-converter convert_file (line 77). -/
def pc_output_path (now : Nat) (filename target : String) : String :=
  UPLOAD_FOLDER ++ "/output_" ++ Nat.repr now ++ "_" ++ pc_output_filename filename target

/-- The try-block of python-converter convert_file: validations, staging,
perform_conversion (whose ValueError for an unsupported pair is caught by the
generic except branch and surfaced as a 500), and the final existence check
on the result. -/
def pc_convert_file_body
    (docOracle : DocRoute → List String → Except String (List String × List Nat))
    (now : Nat) (req : ConvRequest) (fs : List String) : BodyOutcome :=
  if !req.hasFile then ⟨.errorResponse "No file provided" 400, fs, none, none⟩
  else
    let target := lowerStr req.targetFormat
    if req.file.filename == "" then ⟨.errorResponse "No file selected" 400, fs, none, none⟩
    else if !pc_allowed_file req.file.filename then
      ⟨.errorResponse "File type not allowed" 400, fs, none, none⟩
    else if target == "" then
      ⟨.errorResponse "Target format not specified" 400, fs, none, none⟩
    else
      let input_path := pc_input_path now req.file.filename
      let output_path := pc_output_path now req.file.filename target
      let fs1 := fsWrite input_path fs
      let input_ext := lowerStr (String.mk (splitext_ext input_path.data))
      match perform_conversion_route input_ext target with
      | .error e =>
        ⟨.errorResponse ("Conversion failed: " ++ e) 500,
          fs1, some input_path, some output_path⟩
      | .ok route =>
        match docOracle route fs1 with
        | .error e =>
          ⟨.errorResponse ("Conversion failed: " ++ e) 500,
            fs1, some input_path, some output_path⟩
        | .ok (fs2, data) =>
          if fsExists output_path fs2 then
            ⟨.fileResponse data (pc_output_filename req.file.filename target)
              (pc_get_mimetype target), fs2, some input_path, some output_path⟩
          else
            ⟨.errorResponse "Conversion failed - no output file created" 500,
              fs2, some input_path, some output_path⟩

/-! ## Supporting lemmas -/

theorem fsExists_fsWrite_self (p : String) (fs : List String) :
    fsExists p (fsWrite p fs) = true :=
  List.elem_iff.mpr (List.mem_cons_self _ _)

theorem fsExists_false_of_not_mem {p : String} {fs : List String} (h : p ∉ fs) :
    fsExists p fs = false := by
  cases hc : fsExists p fs with
  | false => rfl
  | true => exact absurd (List.elem_iff.mp hc) h

theorem not_mem_fsRemove_self (p : String) (fs : List String) :
    p ∉ fsRemove p fs := by
  intro h
  rcases List.mem_filter.mp h with ⟨-, hbeq⟩
  simp at hbeq

theorem mem_of_mem_fsRemove {p q : String} {fs : List String}
    (h : p ∈ fsRemove q fs) : p ∈ fs :=
  (List.mem_filter.mp h).1

theorem mem_of_mem_cleanup {failDel : String → Bool} {p : String} {fs : List String}
    {h : Option String} (hm : p ∈ cleanup_file failDel fs h) : p ∈ fs := by
  cases h with
  | none => exact hm
  | some q =>
    rw [cleanup_file] at hm
    by_cases he : fsExists q fs = true
    · rw [if_pos he] at hm
      by_cases hf : failDel q = true
      · rwa [if_pos hf] at hm
      · rw [if_neg hf] at hm
        exact mem_of_mem_fsRemove hm
    · rwa [if_neg he] at hm

theorem not_mem_cleanup_self {failDel : String → Bool} (p : String) (fs : List String)
    (hfail : failDel p = false) : p ∉ cleanup_file failDel fs (some p) := by
  rw [cleanup_file]
  by_cases he : fsExists p fs = true
  · rw [if_pos he, if_neg (by simp [hfail])]
    exact not_mem_fsRemove_self p fs
  · rw [if_neg he]
    intro hm
    exact he (List.elem_iff.mpr hm)

theorem cleanup_file_idem (failDel : String → Bool) (fs : List String)
    (h : Option String) :
    cleanup_file failDel (cleanup_file failDel fs h) h = cleanup_file failDel fs h := by
  cases h with
  | none => rfl
  | some p =>
    by_cases hf : failDel p = true
    · rw [cleanup_file, cleanup_file]
      by_cases he : fsExists p fs = true
      · rw [if_pos he, if_pos hf, if_pos he, if_pos hf]
      · rw [if_neg he, if_neg he]
    · have hp := @not_mem_cleanup_self failDel p fs
        (Bool.eq_false_iff.mpr hf)
      conv_lhs => rw [cleanup_file]
      rw [if_neg (by simpa using fsExists_false_of_not_mem hp)]

theorem isPrefixOf_self (l : List Char) : l.isPrefixOf l = true := by
  induction l with
  | nil => rfl
  | cons c t ih => simp [List.isPrefixOf, ih]

theorem charsContain_append (pre p : List Char) : charsContain p (pre ++ p) = true := by
  induction pre with
  | nil =>
    cases p with
    | nil => rfl
    | cons c t => simp [charsContain, isPrefixOf_self]
  | cons c t ih => simp [charsContain, ih]

theorem data_append (a b : String) : (a ++ b).data = a.data ++ b.data := rfl

theorem blendPixel_zero (img : PILImage) (p : List Nat) :
    blendPixel (pixelRGB img p) [255, 255, 255] 0 = [255, 255, 255] := by
  obtain ⟨mode, px, pal⟩ := img
  cases mode <;> simp [pixelRGB, blendPixel, blendChannel]

theorem pasteMaskPx_white_flatten (img : PILImage) (f : List Nat → Nat)
    (ps : List (List Nat)) :
    List.Forall₂ (fun p q => f p = 0 → q = [255, 255, 255]) ps
      (pasteMaskPx img (List.replicate ps.length [255, 255, 255]) ps (ps.map f)) := by
  induction ps with
  | nil => exact List.Forall₂.nil
  | cons p t ih =>
    rw [List.length_cons, List.replicate_succ, List.map_cons, pasteMaskPx]
    exact List.Forall₂.cons
      (fun hz => by rw [hz, blendPixel_zero]) ih

theorem no_transparent_pixels_RGB (px pal : List (List Nat)) :
    no_transparent_pixels ⟨.RGB, px, pal⟩ = true := by
  simp [no_transparent_pixels, pixelAlpha]

/-! ## Supporting lemmas for the orchestrator claims -/

theorem run_methods_all_fail (ms : List MethodResult) :
    ∀ lastError : Option String, (∀ m ∈ ms, methodSucceeds m = false) →
      run_methods ms lastError = .error (last_error_after ms lastError) := by
  induction ms with
  | nil => intro lastError _; rfl
  | cons m rest ih =>
    intro lastError h
    cases m with
    | raises e =>
      simpa [run_methods, last_error_after] using
        ih (some e) (fun x hx => h x (List.mem_cons_of_mem _ hx))
    | returns p present sz =>
      have hm := h _ (List.mem_cons_self _ _)
      simp only [methodSucceeds] at hm
      simpa [run_methods, last_error_after, hm] using
        ih lastError (fun x hx => h x (List.mem_cons_of_mem _ hx))

theorem invoked_methods_all_fail (ms : List MethodResult)
    (h : ∀ m ∈ ms, methodSucceeds m = false) :
    invoked_methods ms = ms.length := by
  induction ms with
  | nil => rfl
  | cons m rest ih =>
    have hm := h _ (List.mem_cons_self _ _)
    simp [invoked_methods, hm, ih (fun x hx => h x (List.mem_cons_of_mem _ hx))]

theorem run_methods_first_success (pre : List MethodResult) (m : MethodResult)
    (post : List MethodResult) (hpre : ∀ x ∈ pre, methodSucceeds x = false)
    (hm : methodSucceeds m = true) :
    ∀ lastError : Option String,
      run_methods (pre ++ m :: post) lastError = .ok (methodPath m) := by
  induction pre with
  | nil =>
    intro lastError
    cases m with
    | raises e => simp [methodSucceeds] at hm
    | returns p present sz =>
      simp only [methodSucceeds] at hm
      simp [run_methods, methodPath, hm]
  | cons x rest ih =>
    intro lastError
    have hx := hpre _ (List.mem_cons_self _ _)
    have ih2 := ih (fun y hy => hpre y (List.mem_cons_of_mem _ hy))
    cases x with
    | raises e => simpa [run_methods] using ih2 (some e)
    | returns p present sz =>
      simp only [methodSucceeds] at hx
      simpa [run_methods, hx] using ih2 lastError

theorem invoked_methods_first_success (pre : List MethodResult) (m : MethodResult)
    (post : List MethodResult) (hpre : ∀ x ∈ pre, methodSucceeds x = false)
    (hm : methodSucceeds m = true) :
    invoked_methods (pre ++ m :: post) = pre.length + 1 := by
  induction pre with
  | nil => simp [invoked_methods, hm]
  | cons x rest ih =>
    have hx := hpre _ (List.mem_cons_self _ _)
    simp [invoked_methods, hx, ih (fun y hy => hpre y (List.mem_cons_of_mem _ hy))]

/-! ## Claims C1, C2, C3: the fallback orchestrator -/

/-- C1 counterexample.  The claim asserts that when all N candidates fail the
Failure carries exactly N attempt entries, each preserving its error detail.
With the two-method all-failing chain [raises e1, raises e2] the raised
Failure carries only the single value last_error = e2: its attempt list has
length 1, not 2, and the outcome is identical to that of a chain whose first
error is different, so the first attempt's error detail is discarded. -/
theorem c1_counterexample :
    convert_pdf_to_docx [.raises "e1", .raises "e2"] = .error (some "e2") ∧
    (attemptDetails (convert_pdf_to_docx [.raises "e1", .raises "e2"])).length ≠ 2 ∧
    convert_pdf_to_docx [.raises "different", .raises "e2"] =
      convert_pdf_to_docx [.raises "e1", .raises "e2"] := by
  refine ⟨rfl, by decide, rfl⟩

/-- C1 (amended): when every candidate of the chain fails, the final outcome
is a Failure produced only after every candidate has been attempted
(invoked_methods = N), but it carries only the error of the last candidate
that raised (last_error), hence at most one attempt detail, not N. -/
theorem c1_failure_after_all_attempted (ms : List MethodResult)
    (h : ∀ m ∈ ms, methodSucceeds m = false) :
    convert_pdf_to_docx ms = .error (last_error_after ms none) ∧
    invoked_methods ms = ms.length ∧
    (attemptDetails (convert_pdf_to_docx ms)).length ≤ 1 := by
  refine ⟨run_methods_all_fail ms none h, invoked_methods_all_fail ms h, ?_⟩
  rw [convert_pdf_to_docx, run_methods_all_fail ms none h]
  cases last_error_after ms none <;> simp [attemptDetails]

/-- C1 witness: the amended theorem instantiated on the concrete all-failing
two-method chain. -/
theorem c1_witness :
    convert_pdf_to_docx [.raises "e1", .raises "e2"] =
      .error (last_error_after [.raises "e1", .raises "e2"] none) ∧
    invoked_methods [.raises "e1", .raises "e2"] = 2 ∧
    (attemptDetails (convert_pdf_to_docx [.raises "e1", .raises "e2"])).length ≤ 1 :=
  c1_failure_after_all_attempted [.raises "e1", .raises "e2"] (by decide)

/-- C2 counterexample.  The claim asserts that when the k-th candidate is the
first to succeed, exactly the k-1 earlier failures are recorded as attempts.
With k = 3 (two raising candidates before the first success) the returned
Success carries the path alone: the recoverable attempt list is empty, not of
length 2, and the outcome is identical to that of a chain whose first error
differs, so the earlier failures are not recorded anywhere in the result. -/
theorem c2_counterexample :
    convert_pdf_to_docx [.raises "e1", .raises "e2", .returns "out.docx" true 5] =
      .ok "out.docx" ∧
    (attemptDetails
      (convert_pdf_to_docx [.raises "e1", .raises "e2", .returns "out.docx" true 5])).length ≠ 2 ∧
    convert_pdf_to_docx [.raises "different", .raises "e2", .returns "out.docx" true 5] =
      convert_pdf_to_docx [.raises "e1", .raises "e2", .returns "out.docx" true 5] := by
  refine ⟨rfl, by decide, rfl⟩

/-- C2 (amended): when the k-th candidate is the first to succeed, the
orchestrator immediately returns that candidate's result and the candidates
after it are never invoked (invoked_methods = k); however no attempt log is
produced: the Success carries no record of the k-1 earlier failures. -/
theorem c2_first_success_wins (pre : List MethodResult) (m : MethodResult)
    (post : List MethodResult) (hpre : ∀ x ∈ pre, methodSucceeds x = false)
    (hm : methodSucceeds m = true) :
    convert_pdf_to_docx (pre ++ m :: post) = .ok (methodPath m) ∧
    invoked_methods (pre ++ m :: post) = pre.length + 1 ∧
    attemptDetails (convert_pdf_to_docx (pre ++ m :: post)) = [] := by
  refine ⟨run_methods_first_success pre m post hpre hm none,
    invoked_methods_first_success pre m post hpre hm, ?_⟩
  rw [convert_pdf_to_docx, run_methods_first_success pre m post hpre hm none]
  rfl

/-- C2 witness: the amended theorem instantiated on a chain whose third
candidate is the first success. -/
theorem c2_witness :
    convert_pdf_to_docx
        ([.raises "e1", .raises "e2"] ++ MethodResult.returns "out.docx" true 5 :: []) =
      .ok (methodPath (.returns "out.docx" true 5)) ∧
    invoked_methods
        ([.raises "e1", .raises "e2"] ++ MethodResult.returns "out.docx" true 5 :: []) =
      [MethodResult.raises "e1", .raises "e2"].length + 1 ∧
    attemptDetails (convert_pdf_to_docx
        ([.raises "e1", .raises "e2"] ++ MethodResult.returns "out.docx" true 5 :: [])) = [] :=
  c2_first_success_wins [.raises "e1", .raises "e2"] (.returns "out.docx" true 5) []
    (by decide) (by decide)

/-- C3 counterexample.  The claim asserts that for every converter variant a
zero-byte output file is classified as a failure.  The newBackend fallback
loop tests only "result and os.path.exists(result)" and never the size: a
method returning an existing zero-byte file is accepted as a Success. -/
theorem c3_counterexample :
    convert_pdf_to_docx [.returns "out.docx" true 0] = .ok "out.docx" ∧
    methodSucceeds (.returns "out.docx" true 0) = true := by
  exact ⟨rfl, rfl⟩

/-- C3 (amended): a missing output file is classified as a failure everywhere
(the newBackend loop skips past it to the next candidate, and the
python-converter pdf2docx verification rejects it); a zero-byte output file is
classified as a failure by the python-converter pdf2docx verification, but the
newBackend loop ignores the size entirely and accepts an existing zero-byte
output as a Success. -/
theorem c3_missing_fails_but_zero_byte_succeeds (path : String) (size : Nat)
    (rest : List MethodResult) (h : path ≠ "") :
    convert_pdf_to_docx (.returns path false size :: rest) = convert_pdf_to_docx rest ∧
    pdf2docx_verified false size = false ∧
    pdf2docx_verified true 0 = false ∧
    pdf2docx_verified true size = decide (0 < size) ∧
    convert_pdf_to_docx [.returns path true 0] = .ok path := by
  refine ⟨?_, rfl, rfl, rfl, ?_⟩
  · simp [convert_pdf_to_docx, run_methods]
  · simp [convert_pdf_to_docx, run_methods, h]

/-- C3 witness: the amended theorem instantiated on a concrete path, a
concrete size and the empty remainder chain. -/
theorem c3_witness :
    convert_pdf_to_docx [.returns "out.docx" false 7] = convert_pdf_to_docx [] ∧
    pdf2docx_verified false 7 = false ∧
    pdf2docx_verified true 0 = false ∧
    pdf2docx_verified true 7 = decide (0 < 7) ∧
    convert_pdf_to_docx [.returns "out.docx" true 0] = .ok "out.docx" :=
  c3_missing_fails_but_zero_byte_succeeds "out.docx" 7 [] (by decide)

/-- C5 counterexample.  The capability table advertises pdf as a target for
source application/pdf, but the dispatch of convert_file has no route for the
pair (application/pdf, pdf): it falls through to the unsupported branch. -/
theorem c5_counterexample :
    ("application/pdf", ["docx", "txt", "pdf"]) ∈ get_supported_conversions ∧
    "pdf" ∈ ["docx", "txt", "pdf"] ∧
    convert_file_route "application/pdf" "pdf" = .unsupported := by
  refine ⟨by decide, by decide, by rfl⟩

/-- C5 (amended): the advertised capability table and the dispatch table do
not agree.  An advertised pair has a dispatch route exactly when its source
mime is an image mime or the pair is one of the six routed document pairs;
the remaining advertised pairs - the identity pairs pdf/pdf, docx/docx and
txt/txt, and every pair whose source is the msword, excel or powerpoint
mime - are dispatched as unsupported. -/
theorem c5_capability_matrix_disagrees_with_dispatch :
    (get_supported_conversions.all fun pr =>
      pr.2.all fun t =>
        routeRegistered pr.1 t ==
          (pyStartsWith pr.1 "image/" || routedDocPairs.contains (pr.1, t))) = true := by
  decide

/-! ## Claim C4: unsupported pairs -/

/-- C4 counterexample.  In python-converter the unsupported pair txt to pdf
(the txt extension passes validation) is not rejected with a 400-equivalent
capability error: perform_conversion raises ValueError, the generic except
branch catches it, and the response is a 500 of the same class as a runtime
conversion failure. -/
theorem c4_counterexample :
    (pc_convert_file_body (fun _ fs => .ok (fs, [])) 5 ⟨true, ⟨"a.txt", [1], 0⟩, "pdf"⟩
      []).result =
      .errorResponse "Conversion failed: Unsupported conversion: .txt to pdf" 500 := by
  decide

/-- C4 (amended): for a pair with no registered conversion method neither
service consults the conversion oracle (no method is attempted, as the
outcome below does not mention it), but only newBackend classifies the
failure as a 400-equivalent capability error; python-converter lets the
ValueError escape to its generic handler, producing a 500-equivalent
response of the same class as a runtime conversion failure. -/
theorem c4_unsupported_pair (decode : List Nat → Except String PILImage)
    (encode : SaveCall → List Nat)
    (docOracle : DocRoute → List String → Except String (List String × List Nat))
    (now : Nat) (req : ConvRequest) (fs : List String)
    (h1 : req.hasFile = true) (h2 : (req.file.filename == "") = false)
    (h4 : (lowerStr req.targetFormat == "") = false) :
    (allowed_file req.file.filename = true →
      pyStartsWith (get_mime_type req.file.filename) "image/" = false →
      convert_file_route (get_mime_type req.file.filename) (lowerStr req.targetFormat) =
        .unsupported →
      convert_file_body decode encode docOracle now req fs =
        ⟨.errorResponse ("Unsupported conversion: " ++ get_mime_type req.file.filename ++
            " to " ++ lowerStr req.targetFormat) 400,
          fsWrite (nb_input_path now req.file.filename) fs,
          some (nb_input_path now req.file.filename),
          some (nb_output_path now req.file.filename (lowerStr req.targetFormat))⟩) ∧
    (∀ e, pc_allowed_file req.file.filename = true →
      perform_conversion_route
          (lowerStr (String.mk (splitext_ext (pc_input_path now req.file.filename).data)))
          (lowerStr req.targetFormat) = .error e →
      pc_convert_file_body docOracle now req fs =
        ⟨.errorResponse ("Conversion failed: " ++ e) 500,
          fsWrite (pc_input_path now req.file.filename) fs,
          some (pc_input_path now req.file.filename),
          some (pc_output_path now req.file.filename (lowerStr req.targetFormat))⟩) := by
  constructor
  · intro h3 h5 h6
    simp [convert_file_body, h1, h2, h3, h4, h5, h6, fsExists_fsWrite_self]
  · intro e h3 h6
    simp [pc_convert_file_body, h1, h2, h3, h4, h6]

/-- C4 witness: the amended theorem instantiated on a doc-to-pdf request in
newBackend (advertised mime application/msword has no route) and a txt-to-pdf
request in python-converter. -/
theorem c4_witness :
    (convert_file_body (fun _ => .error "no") (fun _ => []) (fun _ fs => .ok (fs, []))
      7 ⟨true, ⟨"b.doc", [1], 0⟩, "pdf"⟩ []) =
      ⟨.errorResponse "Unsupported conversion: application/msword to pdf" 400,
        fsWrite (nb_input_path 7 "b.doc") [],
        some (nb_input_path 7 "b.doc"), some (nb_output_path 7 "b.doc" "pdf")⟩ ∧
    (pc_convert_file_body (fun _ fs => .ok (fs, [])) 7 ⟨true, ⟨"b.txt", [1], 0⟩, "pdf"⟩ []) =
      ⟨.errorResponse "Conversion failed: Unsupported conversion: .txt to pdf" 500,
        fsWrite (pc_input_path 7 "b.txt") [],
        some (pc_input_path 7 "b.txt"), some (pc_output_path 7 "b.txt" "pdf")⟩ :=
  ⟨(c4_unsupported_pair (fun _ => .error "no") (fun _ => []) (fun _ fs => .ok (fs, []))
      7 ⟨true, ⟨"b.doc", [1], 0⟩, "pdf"⟩ [] rfl (by decide) (by decide)).1
      (by decide) (by decide) (by decide),
    (c4_unsupported_pair (fun _ => .error "no") (fun _ => []) (fun _ fs => .ok (fs, []))
      7 ⟨true, ⟨"b.txt", [1], 0⟩, "pdf"⟩ [] rfl (by decide) (by decide)).2
      "Unsupported conversion: .txt to pdf" (by decide) (by rfl)⟩

/-! ## Claim C6: guaranteed release of temp resources -/

/-- C6: on every exit path of convert_file the finally block releases both
temp paths: the response is entirely independent of which deletions fail
(cleanup failure is never fatal and cleanup_file, being total, never raises);
whenever a temp path was created and os.remove does not fail on it, the path
no longer exists afterwards; and release is idempotent - a second cleanup of
the same handle leaves the filesystem unchanged. -/
theorem c6_guaranteed_release (decode : List Nat → Except String PILImage)
    (encode : SaveCall → List Nat)
    (docOracle : DocRoute → List String → Except String (List String × List Nat))
    (now : Nat) (req : ConvRequest) (fs : List String)
    (failDel failDel2 : String → Bool) :
    (convert_file decode encode docOracle now req fs failDel).1 =
      (convert_file decode encode docOracle now req fs failDel2).1 ∧
    (∀ p, (convert_file_body decode encode docOracle now req fs).inputPath = some p →
      failDel p = false →
      fsExists p (convert_file decode encode docOracle now req fs failDel).2 = false) ∧
    (∀ p, (convert_file_body decode encode docOracle now req fs).outputPath = some p →
      failDel p = false →
      fsExists p (convert_file decode encode docOracle now req fs failDel).2 = false) ∧
    (∀ (fs2 : List String) (h : Option String),
      cleanup_file failDel (cleanup_file failDel fs2 h) h = cleanup_file failDel fs2 h) := by
  refine ⟨rfl, ?_, ?_, fun fs2 h => cleanup_file_idem failDel fs2 h⟩
  · intro p hp hfail
    apply fsExists_false_of_not_mem
    intro hm
    have hm2 : p ∈ cleanup_file failDel
        (convert_file_body decode encode docOracle now req fs).fs
        (convert_file_body decode encode docOracle now req fs).inputPath :=
      mem_of_mem_cleanup hm
    rw [hp] at hm2
    exact not_mem_cleanup_self p _ hfail hm2
  · intro p hp hfail
    apply fsExists_false_of_not_mem
    intro hm
    have hm2 : p ∈ cleanup_file failDel
        (cleanup_file failDel (convert_file_body decode encode docOracle now req fs).fs
          (convert_file_body decode encode docOracle now req fs).inputPath)
        (convert_file_body decode encode docOracle now req fs).outputPath := hm
    rw [hp] at hm2
    exact not_mem_cleanup_self p _ hfail hm2

/-- C6 witness: the release discipline instantiated on a concrete staged
request, a deletion oracle that never fails against one that always fails,
and a concrete double release. -/
theorem c6_witness :
    (convert_file (fun _ => .error "no") (fun _ => []) (fun _ fs => .ok (fs, []))
      5 ⟨true, ⟨"a.png", [1, 2, 3], 0⟩, "jpeg"⟩ [] (fun _ => false)).1 =
      (convert_file (fun _ => .error "no") (fun _ => []) (fun _ fs => .ok (fs, []))
        5 ⟨true, ⟨"a.png", [1, 2, 3], 0⟩, "jpeg"⟩ [] (fun _ => true)).1 ∧
    fsExists "/tmp/input_5_a.png"
      (convert_file (fun _ => .error "no") (fun _ => []) (fun _ fs => .ok (fs, []))
        5 ⟨true, ⟨"a.png", [1, 2, 3], 0⟩, "jpeg"⟩ [] (fun _ => false)).2 = false ∧
    cleanup_file (fun _ => false)
      (cleanup_file (fun _ => false) ["/tmp/x"] (some "/tmp/x")) (some "/tmp/x") =
      cleanup_file (fun _ => false) ["/tmp/x"] (some "/tmp/x") :=
  have h := c6_guaranteed_release (fun _ => .error "no") (fun _ => [])
    (fun _ fs => .ok (fs, [])) 5 ⟨true, ⟨"a.png", [1, 2, 3], 0⟩, "jpeg"⟩ []
    (fun _ => false) (fun _ => true)
  ⟨h.1, h.2.1 "/tmp/input_5_a.png" (by decide) rfl, h.2.2.2 ["/tmp/x"] (some "/tmp/x")⟩

/-! ## Claim C7: temp path uniqueness and filename echoing -/

/-- C7 counterexample.  Two distinct requests (different payloads) handled in
the same second with the same filename receive the same input temp path, and
that path echoes the user-supplied filename verbatim: the claimed distinctness
and no-echo properties both fail. -/
theorem c7_counterexample :
    (⟨true, ⟨"a.png", [1], 0⟩, "jpeg"⟩ : ConvRequest) ≠ ⟨true, ⟨"a.png", [2], 0⟩, "jpeg"⟩ ∧
    (convert_file_body (fun _ => .error "no") (fun _ => []) (fun _ fs => .ok (fs, []))
      5 ⟨true, ⟨"a.png", [1], 0⟩, "jpeg"⟩ []).inputPath =
      (convert_file_body (fun _ => .error "no") (fun _ => []) (fun _ fs => .ok (fs, []))
        5 ⟨true, ⟨"a.png", [2], 0⟩, "jpeg"⟩ []).inputPath ∧
    (convert_file_body (fun _ => .error "no") (fun _ => []) (fun _ fs => .ok (fs, []))
      5 ⟨true, ⟨"a.png", [1], 0⟩, "jpeg"⟩ []).inputPath = some "/tmp/input_5_a.png" ∧
    charsContain "a.png".data "/tmp/input_5_a.png".data = true := by
  refine ⟨by decide, by decide, by decide, by decide⟩

/-- C7 (amended): the generated temp path is a deterministic function of the
second-resolution timestamp and the sanitized filename alone, so any two
requests handled in the same second whose filenames sanitize identically
collide on the same path; moreover the path ends with the sanitized
user-supplied filename, which for an already-safe name (such as a.png) echoes
the raw filename verbatim. -/
theorem c7_paths_collide_and_echo :
    (∀ (now : Nat) (f g : String), get_safe_filename f = get_safe_filename g →
      nb_input_path now f = nb_input_path now g) ∧
    (∀ (now : Nat) (f : String),
      charsContain (get_safe_filename f).data (nb_input_path now f).data = true) ∧
    get_safe_filename "a.png" = "a.png" := by
  refine ⟨?_, ?_, by decide⟩
  · intro now f g h
    rw [nb_input_path, nb_input_path, h]
  · intro now f
    rw [nb_input_path, data_append]
    exact charsContain_append _ _

/-- C7 witness: two genuinely different filenames that sanitize to the same
name collide on the same temp path in the same second, and a concrete path
echo. -/
theorem c7_witness :
    nb_input_path 5 "a png" = nb_input_path 5 "a_png" ∧
    charsContain (get_safe_filename "b.jpg").data (nb_input_path 9 "b.jpg").data = true :=
  ⟨c7_paths_collide_and_echo.1 5 "a png" "a_png" (by decide),
    c7_paths_collide_and_echo.2.1 9 "b.jpg"⟩

/-! ## Claim C8: image conversions and disk staging -/

/-- C8 counterexample.  For a concrete image conversion request the pipeline
does write the payload's input temp file (file.save runs before the image
branch is selected): the claimed skipping of disk staging fails. -/
theorem c8_counterexample :
    (convert_file_body (fun _ => .error "no") (fun _ => []) (fun _ fs => .ok (fs, []))
      5 ⟨true, ⟨"c.png", [9], 0⟩, "jpeg"⟩ []).fs.contains (nb_input_path 5 "c.png") =
      true ∧
    (convert_file_body (fun _ => .error "no") (fun _ => []) (fun _ fs => .ok (fs, []))
      5 ⟨true, ⟨"c.png", [9], 0⟩, "jpeg"⟩ []).inputPath = some (nb_input_path 5 "c.png") := by
  refine ⟨by decide, by decide⟩

/-- C8 (amended): an image conversion request is staged to the input temp
file exactly like a document request; only the conversion step itself then
operates on the in-memory buffer - the document-conversion oracle is never
consulted and no further file is written beyond the staged input. -/
theorem c8_image_still_staged (decode : List Nat → Except String PILImage)
    (encode : SaveCall → List Nat)
    (docOracle docOracle2 : DocRoute → List String → Except String (List String × List Nat))
    (now : Nat) (req : ConvRequest) (fs : List String)
    (h1 : req.hasFile = true) (h2 : (req.file.filename == "") = false)
    (h3 : allowed_file req.file.filename = true)
    (h4 : (lowerStr req.targetFormat == "") = false)
    (h5 : pyStartsWith (get_mime_type req.file.filename) "image/" = true) :
    (convert_file_body decode encode docOracle now req fs).fs =
      fsWrite (nb_input_path now req.file.filename) fs ∧
    (convert_file_body decode encode docOracle now req fs).inputPath =
      some (nb_input_path now req.file.filename) ∧
    convert_file_body decode encode docOracle now req fs =
      convert_file_body decode encode docOracle2 now req fs := by
  refine ⟨?_, ?_, ?_⟩ <;>
    simp only [convert_file_body, h1, h2, h3, h4, h5, Bool.not_true, Bool.not_false,
      Bool.false_eq_true, if_false, if_true, fsExists_fsWrite_self] <;>
    cases convert_image decode encode
      ((file_save req.file).content.drop (file_save req.file).pos)
      (String.mk (afterLastDot req.file.filename.data)) (lowerStr req.targetFormat) <;>
    rfl

/-- C8 witness: the amended staging behaviour instantiated on a concrete
image request. -/
theorem c8_witness :
    (convert_file_body (fun _ => .error "no") (fun _ => []) (fun _ fs => .ok (fs, []))
      5 ⟨true, ⟨"c.png", [9], 0⟩, "jpeg"⟩ []).fs = fsWrite (nb_input_path 5 "c.png") [] ∧
    (convert_file_body (fun _ => .error "no") (fun _ => []) (fun _ fs => .ok (fs, []))
      5 ⟨true, ⟨"c.png", [9], 0⟩, "jpeg"⟩ []).inputPath = some (nb_input_path 5 "c.png") ∧
    convert_file_body (fun _ => .error "no") (fun _ => []) (fun _ fs => .ok (fs, []))
      5 ⟨true, ⟨"c.png", [9], 0⟩, "jpeg"⟩ [] =
      convert_file_body (fun _ => .error "no") (fun _ => [])
        (fun _ fs => .error "other oracle") 5 ⟨true, ⟨"c.png", [9], 0⟩, "jpeg"⟩ [] :=
  c8_image_still_staged (fun _ => .error "no") (fun _ => []) (fun _ fs => .ok (fs, []))
    (fun _ fs => .error "other oracle") 5 ⟨true, ⟨"c.png", [9], 0⟩, "jpeg"⟩ []
    rfl (by decide) (by decide) (by decide) (by decide)

/-! ## Claim C9: the image branch reads an exhausted stream -/

/-- C9: for every image conversion request that reaches the image branch, the
buffer handed to convert_image is empty - file.save consumed the upload
stream and file.read() returns the bytes after the end position - so, since
no image decodes from an empty buffer, the request yields the 500 error
response instead of converted image bytes. -/
theorem c9_image_buffer_empty (decode : List Nat → Except String PILImage)
    (encode : SaveCall → List Nat)
    (docOracle : DocRoute → List String → Except String (List String × List Nat))
    (now : Nat) (req : ConvRequest) (fs : List String) (msg : String)
    (h1 : req.hasFile = true) (h2 : (req.file.filename == "") = false)
    (h3 : allowed_file req.file.filename = true)
    (h4 : (lowerStr req.targetFormat == "") = false)
    (h5 : pyStartsWith (get_mime_type req.file.filename) "image/" = true)
    (hd : decode [] = .error msg) :
    staged_read req.file = [] ∧
    (convert_file_body decode encode docOracle now req fs).result =
      .errorResponse ("Conversion failed: " ++ ("Image conversion failed: " ++ msg)) 500 ∧
    (∀ failDel, (convert_file decode encode docOracle now req fs failDel).1 =
      .errorResponse ("Conversion failed: " ++ ("Image conversion failed: " ++ msg)) 500) := by
  have hbuf : (file_save req.file).content.drop (file_save req.file).pos = [] := by
    simp [file_save]
  have hbody : (convert_file_body decode encode docOracle now req fs).result =
      .errorResponse ("Conversion failed: " ++ ("Image conversion failed: " ++ msg)) 500 := by
    simp [convert_file_body, h1, h2, h3, h4, h5, fsExists_fsWrite_self, hbuf,
      convert_image, hd]
  exact ⟨by simp [staged_read, file_save], hbody, fun failDel => hbody⟩

/-- C9 witness: a concrete image request with a decoder that rejects the
empty buffer. -/
theorem c9_witness :
    staged_read ⟨"a.png", [1, 2, 3], 0⟩ = [] ∧
    (convert_file_body (fun _ => .error "cannot identify image file") (fun _ => [])
      (fun _ fs => .ok (fs, [])) 5 ⟨true, ⟨"a.png", [1, 2, 3], 0⟩, "jpeg"⟩ []).result =
      .errorResponse
        "Conversion failed: Image conversion failed: cannot identify image file" 500 ∧
    (∀ failDel,
      (convert_file (fun _ => .error "cannot identify image file") (fun _ => [])
        (fun _ fs => .ok (fs, [])) 5 ⟨true, ⟨"a.png", [1, 2, 3], 0⟩, "jpeg"⟩ [] failDel).1 =
      .errorResponse
        "Conversion failed: Image conversion failed: cannot identify image file" 500) :=
  c9_image_buffer_empty (fun _ => .error "cannot identify image file") (fun _ => [])
    (fun _ fs => .ok (fs, [])) 5 ⟨true, ⟨"a.png", [1, 2, 3], 0⟩, "jpeg"⟩ []
    "cannot identify image file" rfl (by decide) (by decide) (by decide) (by decide) rfl

/-! ## Claim C10: alpha flattening in the image re-encode -/

/-- C10 counterexample.  A grayscale-with-alpha (LA) source whose single
pixel is fully transparent black is not flattened onto white for the JPEG
target: paste is called without the alpha mask (the mask is passed only when
the image's mode is RGBA), so the output pixel keeps the luminance 0 instead
of becoming white. -/
theorem c10_counterexample :
    pixelAlpha ⟨.LA, [[0, 0]], []⟩ [0, 0] = 0 ∧
    (encode_for_target ⟨.LA, [[0, 0]], []⟩ "jpeg").img.px = [[0, 0, 0]] ∧
    (encode_for_target ⟨.LA, [[0, 0]], []⟩ "jpeg").img.px ≠ [[255, 255, 255]] := by
  refine ⟨rfl, by decide, by decide⟩

/-- C10 (amended): for a JPEG target, RGBA and palette sources are flattened
onto the opaque white background (every fully transparent source pixel maps
to white), but an LA source is pasted without its alpha mask, keeping its
luminance; in all alpha-mode cases the output is RGB and the re-encoded image
is fully opaque, and the PNG and WEBP targets are encoded directly at their
fixed settings. -/
theorem c10_alpha_flattening (img : PILImage) (target : String)
    (hj : (upperStr target == "JPEG" || upperStr target == "JPG") = true) :
    (img.mode = .RGBA ∨ img.mode = .P →
      List.Forall₂ (fun p q => pixelAlpha img p = 0 → q = [255, 255, 255]) img.px
        (encode_for_target img target).img.px) ∧
    (img.mode = .LA →
      (encode_for_target img target).img.px = img.px.map (pixelRGB img)) ∧
    (img.mode = .RGBA ∨ img.mode = .LA ∨ img.mode = .P →
      (encode_for_target img target).img.mode = .RGB) ∧
    no_transparent_pixels (encode_for_target img target).img = true ∧
    (∀ (img2 : PILImage) (t : String), upperStr t = "PNG" →
      encode_for_target img2 t = ⟨img2, "PNG", none⟩) ∧
    (∀ (img2 : PILImage) (t : String), upperStr t = "WEBP" →
      encode_for_target img2 t = ⟨img2, "WEBP", some 90⟩) := by
  obtain ⟨mode, px, pal⟩ := img
  have hpng : ∀ (img2 : PILImage) (t : String), upperStr t = "PNG" →
      encode_for_target img2 t = ⟨img2, "PNG", none⟩ := by
    intro img2 t ht
    simp [encode_for_target, ht]
  have hwebp : ∀ (img2 : PILImage) (t : String), upperStr t = "WEBP" →
      encode_for_target img2 t = ⟨img2, "WEBP", some 90⟩ := by
    intro img2 t ht
    simp [encode_for_target, ht]
  cases mode with
  | RGBA =>
    refine ⟨?_, ?_, ?_, ?_, hpng, hwebp⟩
    · intro h
      simp only [encode_for_target, hj, if_true]
      simp [paste, white_background, split_last, channelCount, pixelAlpha]
      simpa using pasteMaskPx_white_flatten ⟨.RGBA, px, pal⟩ (fun p => p.getD 3 0) px
    · intro h
      simp at h
    · intro h
      simp only [encode_for_target, hj, if_true]
      simp [paste, white_background]
    · simp only [encode_for_target, hj, if_true]
      simp only [show ((⟨.RGBA, px, pal⟩ : PILImage).mode == PixMode.RGBA ||
        (⟨.RGBA, px, pal⟩ : PILImage).mode == PixMode.LA ||
        (⟨.RGBA, px, pal⟩ : PILImage).mode == PixMode.P) = true from rfl, if_true]
      simp [paste, white_background, no_transparent_pixels, pixelAlpha]
  | LA =>
    refine ⟨?_, ?_, ?_, ?_, hpng, hwebp⟩
    · rintro (h | h) <;> simp at h
    · intro h
      simp only [encode_for_target, hj, if_true]
      simp [paste, white_background]
    · intro h
      simp only [encode_for_target, hj, if_true]
      simp [paste, white_background]
    · simp only [encode_for_target, hj, if_true]
      simp [paste, white_background, no_transparent_pixels, pixelAlpha]
  | P =>
    refine ⟨?_, ?_, ?_, ?_, hpng, hwebp⟩
    · intro h
      simp only [encode_for_target, hj, if_true]
      simp [paste, white_background, split_last, channelCount, convert_RGBA, pixelAlpha]
      have key := pasteMaskPx_white_flatten
        ⟨.RGBA, px.map (fun p => pal.getD (p.getD 0 0) [0, 0, 0, 255]), []⟩
        (fun p => p.getD 3 0)
        (px.map (fun p => pal.getD (p.getD 0 0) [0, 0, 0, 255]))
      rw [List.forall₂_map_left_iff] at key
      simpa using key
    · intro h
      simp at h
    · intro h
      simp only [encode_for_target, hj, if_true]
      simp [paste, white_background, convert_RGBA]
    · simp only [encode_for_target, hj, if_true]
      simp [paste, white_background, convert_RGBA, no_transparent_pixels, pixelAlpha]
  | RGB =>
    refine ⟨?_, ?_, ?_, ?_, hpng, hwebp⟩
    · rintro (h | h) <;> simp at h
    · intro h
      simp at h
    · rintro (h | h | h) <;> simp at h
    · simp only [encode_for_target, hj, if_true]
      simp [no_transparent_pixels, pixelAlpha]
  | L =>
    refine ⟨?_, ?_, ?_, ?_, hpng, hwebp⟩
    · rintro (h | h) <;> simp at h
    · intro h
      simp at h
    · rintro (h | h | h) <;> simp at h
    · simp only [encode_for_target, hj, if_true]
      simp [no_transparent_pixels, pixelAlpha]

/-- C10 witness: the amended flattening behaviour applied to a concrete RGBA
image with a fully transparent pixel, plus a direct PNG encode. -/
theorem c10_witness :
    List.Forall₂
      (fun p q => pixelAlpha ⟨.RGBA, [[1, 2, 3, 0]], []⟩ p = 0 → q = [255, 255, 255])
      [[1, 2, 3, 0]] (encode_for_target ⟨.RGBA, [[1, 2, 3, 0]], []⟩ "jpeg").img.px ∧
    no_transparent_pixels (encode_for_target ⟨.RGBA, [[1, 2, 3, 0]], []⟩ "jpeg").img = true ∧
    encode_for_target ⟨.RGBA, [[9]], []⟩ "png" = ⟨⟨.RGBA, [[9]], []⟩, "PNG", none⟩ :=
  have h := c10_alpha_flattening ⟨.RGBA, [[1, 2, 3, 0]], []⟩ "jpeg" (by decide)
  ⟨h.1 (Or.inl rfl), h.2.2.2.1, h.2.2.2.2.1 ⟨.RGBA, [[9]], []⟩ "png" (by decide)⟩

end FileConverter
